import Mathlib

/-!
Verification of the plant-irrigation controller (`code.py`) and its embedded
HTTP server library (`lib/webserver.py`).

The Python source is shallowly embedded: hardware pins become explicit record
state, the cooperative-async effects of one operation become an explicit list
of events, exceptions become `Except`, and Python numbers become `ℚ`/`Int`/`Nat`.
Fault injection points (`DFault`) stand for the places where the Python runtime
can raise inside `dispense_water` (the distance sample and the timed sleep).
-/

set_option maxRecDepth 4000

namespace Plant

/-- The three pump labels `a`, `b`, `c` — the domain of `label2pin`. -/
inductive PumpLabel where
  | a
  | b
  | c
deriving DecidableEq, Repr

/-- The three pump output pins (`pump_a_pin`, `pump_b_pin`, `pump_c_pin`):
each holds the boolean value last written to it. -/
structure Pins where
  pa : Bool
  pb : Bool
  pc : Bool
deriving DecidableEq, Repr

/-- Read the output pin selected by `label2pin`. -/
def label2pin_get (p : Pins) : PumpLabel → Bool
  | PumpLabel.a => p.pa
  | PumpLabel.b => p.pb
  | PumpLabel.c => p.pc

/-- Write the output pin selected by `label2pin`. -/
def label2pin_set (p : Pins) (l : PumpLabel) (v : Bool) : Pins :=
  match l with
  | PumpLabel.a => { p with pa := v }
  | PumpLabel.b => { p with pb := v }
  | PumpLabel.c => { p with pc := v }

/-- `start_pump`: sets the selected pump's output pin to on. -/
def start_pump (p : Pins) (l : PumpLabel) : Pins :=
  label2pin_set p l true

/-- `stop_pump`: sets the selected pump's output pin to off. -/
def stop_pump (p : Pins) (l : PumpLabel) : Pins :=
  label2pin_set p l false

/-- Constants of `code.py`. -/
def target_moisture : List ℚ := [60, 60, 60]

def mlpp : ℚ := 1

def scmml : ℚ := 0.00669518060338389

def pipe_volume : ℚ := 40

/-- Fault-injection points inside `dispense_water`: the distance sample
(`sample_tof`) can raise, the timed `asyncio.sleep` can raise, or the call
completes normally. -/
inductive DFault where
  | atSample
  | atSleep
  | nofault
deriving DecidableEq, Repr

/-- Observable events of one `dispense_water` call. -/
inductive DEvent where
  | logDispense (ml : ℚ)
  | pumpOn (l : PumpLabel)
  | slept (t : ℚ)
  | pumpOff (l : PumpLabel)
deriving DecidableEq, Repr

/-- The body of the `try:` block of `dispense_water`, with a fault injected at
the chosen step.  `cm` is the value `sample_tof(tof)` returns when it does not
fault. -/
def dispense_body (pins : Pins) (pump : PumpLabel) (ml cm : ℚ) (fault : DFault) :
    Pins × List DEvent × Except DFault Unit :=
  match fault with
  | DFault.atSample => (pins, [], Except.error DFault.atSample)
  | fault =>
    let water_time := scmml * cm * (ml + pipe_volume)
    let evs := [DEvent.logDispense ml]
    let pins := start_pump pins pump
    let evs := evs ++ [DEvent.pumpOn pump]
    match fault with
    | DFault.atSleep => (pins, evs, Except.error DFault.atSleep)
    | _ =>
      let evs := evs ++ [DEvent.slept water_time]
      let pins := stop_pump pins pump
      (pins, evs ++ [DEvent.pumpOff pump], Except.ok ())

/-- `dispense_water(pump, ml, tof)`: run the body; on any exception the
`except:` clause stops the pump and re-raises. -/
def dispense_water (pins : Pins) (pump : PumpLabel) (ml cm : ℚ) (fault : DFault) :
    Pins × List DEvent × Except DFault Unit :=
  match dispense_body pins pump ml cm fault with
  | (p, evs, Except.ok u) => (p, evs, Except.ok u)
  | (p, evs, Except.error e) =>
      (stop_pump p pump, evs ++ [DEvent.pumpOff pump], Except.error e)

/-- Claim C1: every failing run of `dispense_water` ends with the dispensed
pump's output pin off (so no failure path leaves the pump energized), and in
particular a fault raised after pump activation (at the timed sleep) produces
the trace log → pump-on → pump-off with the fault re-raised to the caller. -/
theorem dispense_pump_safety :
    (∀ (pins : Pins) (pump : PumpLabel) (ml cm : ℚ) (fault : DFault) (e : DFault),
      (dispense_water pins pump ml cm fault).2.2 = Except.error e →
      label2pin_get (dispense_water pins pump ml cm fault).1 pump = false)
    ∧ (∀ (pins : Pins) (pump : PumpLabel) (ml cm : ℚ),
      dispense_water pins pump ml cm DFault.atSleep
        = (stop_pump (start_pump pins pump) pump,
           [DEvent.logDispense ml, DEvent.pumpOn pump, DEvent.pumpOff pump],
           Except.error DFault.atSleep)) := by
  constructor
  · intro pins pump ml cm fault e h
    cases fault <;>
      simp [dispense_water, dispense_body, stop_pump] at h ⊢ <;>
      cases pump <;> simp [label2pin_get, label2pin_set]
  · intro pins pump ml cm
    rfl

/-- Witness for C1: a concrete faulting dispense (fault at the sleep, pump a)
ends with pump a's pin off. -/
theorem dispense_pump_safety_witness :
    label2pin_get
      (dispense_water ⟨false, false, false⟩ PumpLabel.a 5 10 DFault.atSleep).1
      PumpLabel.a = false :=
  dispense_pump_safety.1 ⟨false, false, false⟩ PumpLabel.a 5 10 DFault.atSleep
    DFault.atSleep rfl

/-- Claim C6: a fault-free `dispense_water` sleeps for exactly
`scmml * cm * (ml + pipe_volume)` seconds with the pump turned on immediately
before the sleep and off immediately after it, and at distance 10 cm and
volume 5 ml that duration equals `0.00669518060338389 * 10 * 45`. -/
theorem dispense_timing :
    (∀ (pins : Pins) (pump : PumpLabel) (ml cm : ℚ),
      dispense_water pins pump ml cm DFault.nofault
        = (stop_pump (start_pump pins pump) pump,
           [DEvent.logDispense ml, DEvent.pumpOn pump,
            DEvent.slept (scmml * cm * (ml + pipe_volume)),
            DEvent.pumpOff pump],
           Except.ok ()))
    ∧ scmml * 10 * (5 + pipe_volume) = (0.00669518060338389 : ℚ) * 10 * 45 := by
  constructor
  · intro pins pump ml cm
    rfl
  · norm_num [scmml, pipe_volume]

/-- Capacity of `client_queue = collections.deque((), 5)`. -/
def client_queue_cap : Nat := 5

/-- `deque.append` on a deque with `maxlen = cap`: when the deque already holds
`cap` items, appending discards items from the opposite (oldest) end. -/
def deque_append {α : Type} (cap : Nat) (q : List α) (x : α) : List α :=
  if q.length < cap then q ++ [x]
  else List.drop (q.length + 1 - cap) (q ++ [x])

/-- Claim C7: appending to a full capacity-5 pending-connection queue evicts
exactly the oldest still-queued client and keeps the newest five in their
original relative order; six successive arrivals into an empty queue leave
clients 2..6 queued and client 1 dropped. -/
theorem queue_eviction :
    (∀ (q : List Nat) (x : Nat), q.length = 5 →
      deque_append client_queue_cap q x = q.tail ++ [x])
    ∧ List.foldl (deque_append client_queue_cap) [] [1, 2, 3, 4, 5, 6]
        = [2, 3, 4, 5, 6]
    ∧ (1 : Nat) ∉ ([2, 3, 4, 5, 6] : List Nat) := by
  refine ⟨?_, by decide, by decide⟩
  intro q x h
  have hq : 1 ≤ q.length := by omega
  simp only [deque_append, client_queue_cap, h]
  rw [if_neg (by omega)]
  rw [List.drop_append_of_le_length (by omega)]
  simp [List.drop_one]

/-- Witness for C7: appending client 6 to the full queue [1,2,3,4,5] evicts
client 1. -/
theorem queue_eviction_witness :
    deque_append client_queue_cap [1, 2, 3, 4, 5] 6
      = List.tail [1, 2, 3, 4, 5] ++ [6] :=
  queue_eviction.1 [1, 2, 3, 4, 5] 6 rfl

/-- The body of `watering_loop`'s per-position pass: `enumerate(zip(readings,
targets))`, dispensing `(target - reading) * mlpp` whenever
`reading < target`.  The result is the ordered list of dispense events
(position index, milliliters) of one sweep. -/
def sweep_from (m : ℚ) : Nat → List (ℚ × ℚ) → List (Nat × ℚ)
  | _, [] => []
  | i, (reading, target) :: rest =>
    if reading < target then
      (i, (target - reading) * m) :: sweep_from m (i + 1) rest
    else
      sweep_from m (i + 1) rest

/-- One sweep of the watering loop over given readings and targets. -/
def watering_sweep (readings targets : List ℚ) (m : ℚ) : List (Nat × ℚ) :=
  sweep_from m 0 (readings.zip targets)

/-- Every position index in `sweep_from m i l` is at least `i`. -/
theorem sweep_from_lb (m : ℚ) :
    ∀ (l : List (ℚ × ℚ)) (i : Nat) (x : Nat × ℚ),
      x ∈ sweep_from m i l → i ≤ x.1 := by
  intro l
  induction l with
  | nil => intro i x hx; simp [sweep_from] at hx
  | cons p rest ih =>
    intro i x hx
    simp only [sweep_from] at hx
    split at hx
    · rcases List.mem_cons.mp hx with h | h
      · subst h; exact le_refl i
      · exact Nat.le_of_succ_le (ih (i + 1) x h)
    · exact Nat.le_of_succ_le (ih (i + 1) x hx)

/-- The dispense events of a sweep carry strictly increasing position
indices: dispensing is strictly sequential, one position at a time. -/
theorem sweep_from_sequential (m : ℚ) :
    ∀ (l : List (ℚ × ℚ)) (i : Nat),
      List.Pairwise (fun x y => x.1 < y.1) (sweep_from m i l) := by
  intro l
  induction l with
  | nil => intro i; simp [sweep_from]
  | cons p rest ih =>
    intro i
    simp only [sweep_from]
    split
    · refine List.pairwise_cons.mpr ⟨?_, ih (i + 1)⟩
      intro y hy
      exact Nat.lt_of_succ_le (sweep_from_lb m rest (i + 1) y hy)
    · exact ih (i + 1)

/-- Claim C5: in one sweep over the three positions (targets all 60,
mlpp = 1), a position is dispensed to exactly when its reading is strictly
below 60, the dose is `(60 - reading) * 1` ml, readings `[40, 70, 60]` produce
exactly one dispense of 20 ml at position 0, and the dispense events are
strictly sequential (ascending positions, never two at once). -/
theorem watering_decision :
    (∀ r0 r1 r2 : ℚ,
      watering_sweep [r0, r1, r2] target_moisture mlpp
        = (if r0 < 60 then [(0, (60 - r0) * 1)] else [])
          ++ (if r1 < 60 then [(1, (60 - r1) * 1)] else [])
          ++ (if r2 < 60 then [(2, (60 - r2) * 1)] else []))
    ∧ watering_sweep [40, 70, 60] target_moisture mlpp = [(0, 20)]
    ∧ (∀ readings : List ℚ,
      List.Pairwise (fun x y => x.1 < y.1)
        (watering_sweep readings target_moisture mlpp)) := by
  refine ⟨?_, ?_, ?_⟩
  · intro r0 r1 r2
    simp only [watering_sweep, target_moisture, mlpp, List.zip, List.zipWith,
      sweep_from]
    split_ifs <;> simp
  · norm_num [watering_sweep, target_moisture, mlpp, List.zip, List.zipWith,
      sweep_from]
  · intro readings
    exact sweep_from_sequential mlpp (readings.zip target_moisture) 0

/-- Input to one position's sampling pass of `moisture_readings`: `vals n` is
the value returned by the n-th read of `sensor.value`, `clock n` the value
returned by the n-th call of `time.monotonic_ns()` during this pass. -/
structure SensorEnv where
  vals : Nat → Bool
  clock : Nat → Nat

/-- Loop state of the sampling `while`: indices of the next sensor read and
clock read, plus `last_value`, `first`, `last`, `ticks` as in the source. -/
structure MLoopState where
  vi : Nat
  ci : Nat
  last_value : Bool
  first : Option Nat
  last : Option Nat
  ticks : Nat
deriving DecidableEq, Repr

/-- The sampling `while` loop: runs while `ticks < 10` (checked first — the
clock is only read when that holds) and the elapsed time is at most
10^9 ns.  Python's int subtraction may be negative there; truncated `Nat`
subtraction agrees, since a negative difference also passes the bound.
On a transition the code reads the clock once for `first` (only when `first`
is still absent) and once more for `last`.  `fuel` bounds the iterations so
the function is total; `none` means the fuel ran out. -/
def mloop (env : SensorEnv) (start : Nat) : Nat → MLoopState → Option MLoopState
  | 0, _ => none
  | fuel + 1, s =>
    if s.ticks < 10 then
      let now := env.clock s.ci
      if now - start ≤ 1000000000 then
        let v := env.vals s.vi
        if v ≠ s.last_value then
          match s.first with
          | none =>
            mloop env start fuel
              ⟨s.vi + 1, s.ci + 3, v, some (env.clock (s.ci + 1)),
               some (env.clock (s.ci + 2)), s.ticks + 1⟩
          | some f =>
            mloop env start fuel
              ⟨s.vi + 1, s.ci + 2, v, some f, some (env.clock (s.ci + 1)),
               s.ticks + 1⟩
        else
          mloop env start fuel ⟨s.vi + 1, s.ci + 1, v, s.first, s.last, s.ticks⟩
      else some s
    else some s

/-- State at the loop entry: one sensor read (`last_value`) and one clock read
(`start`) already consumed. -/
def mloopInit (env : SensorEnv) : MLoopState :=
  ⟨1, 1, env.vals 0, none, none, 0⟩

/-- Clamp bounds of `moisture_readings`. -/
def min_ns : ℚ := 20000000

def max_ns : ℚ := 80000000

/-- Python's `round(x, 2)` on the exact rational value. -/
def round2 (q : ℚ) : ℚ := (round (q * 100) : ℤ) / 100

/-- The clamp-and-rescale applied to an average transition period:
`((clamp(average) - min_ns) / (max_ns - min_ns)) * 100`, rounded to two
decimals. -/
def moistureScore (average : ℚ) : ℚ :=
  let clamped := max min_ns (min max_ns average)
  round2 ((clamped - min_ns) / (max_ns - min_ns) * 100)

/-- One position's pass of `moisture_readings`: run the sampling loop, then
`if not first or not last` (Python truthiness: absent **or zero** timestamp)
append `0.0`, otherwise append the scaled average period
`(last - first) / ticks`. -/
def moisture_reading_one (env : SensorEnv) (fuel : Nat) : Option ℚ :=
  match mloop env (env.clock 0) fuel (mloopInit env) with
  | none => none
  | some s =>
    match s.first with
    | none => some 0
    | some f =>
      match s.last with
      | none => some 0
      | some l =>
        if f = 0 ∨ l = 0 then some 0
        else some (moistureScore (((l : ℚ) - (f : ℚ)) / (s.ticks : ℚ)))

/-- A sampling pass whose single transition is observed at timestamps
10 ms and 60 ms (start at 5 ns), after which the 1-second ceiling expires. -/
def moistureGoodEnv : SensorEnv where
  vals := fun n => n != 0
  clock := fun n =>
    match n with
    | 0 => 5
    | 1 => 6
    | 2 => 10000000
    | 3 => 60000000
    | _ => 2000000000

/-- A sampling pass identical to `moistureGoodEnv` except that the clock reads
0 when the first transition's timestamp is recorded. -/
def moistureZeroEnv : SensorEnv where
  vals := fun n => n != 0
  clock := fun n =>
    match n with
    | 0 => 0
    | 1 => 0
    | 2 => 0
    | 3 => 50000000
    | _ => 2000000000

/-- Counterexample to claim C4 as stated: in `moistureZeroEnv` one transition
is observed, with first timestamp 0, last timestamp 50000000 and one tick, so
the claimed formula gives a score of 50.00 — but the code's truthiness test
`if not first` treats the zero timestamp as absent and appends 0.0. -/
theorem moisture_zero_timestamp_cx :
    mloop moistureZeroEnv (moistureZeroEnv.clock 0) 3 (mloopInit moistureZeroEnv)
      = some ⟨2, 4, true, some 0, some 50000000, 1⟩
    ∧ moisture_reading_one moistureZeroEnv 3 = some 0
    ∧ moistureScore ((((50000000 : Nat) : ℚ) - ((0 : Nat) : ℚ)) / ((1 : Nat) : ℚ))
        = 50
    ∧ some (0 : ℚ) ≠ some (50 : ℚ) := by
  refine ⟨by decide, rfl, ?_, by norm_num⟩
  norm_num [moistureScore, round2, min_ns, max_ns, round_eq]

/-- Claim C4 (amended): whenever the sampling loop exits with a first and a
last transition timestamp that are both nonzero, the appended score is
`round2` of the linear rescale of the clamped average period
`(last - first) / ticks`; if no transition is observed the result is exactly
0.0 (the code also yields 0.0 when a recorded timestamp is exactly 0, which
its truthiness test conflates with absence); the scale maps 20e6 to 0.00,
80e6 to 100.00, 50e6 to 50.00, and saturates outside the clamp bounds. -/
theorem moisture_scaling_amended :
    (∀ (env : SensorEnv) (fuel : Nat) (s : MLoopState) (f l : Nat),
      mloop env (env.clock 0) fuel (mloopInit env) = some s →
      s.first = some f → s.last = some l → f ≠ 0 → l ≠ 0 →
      moisture_reading_one env fuel
        = some (moistureScore (((l : ℚ) - (f : ℚ)) / (s.ticks : ℚ))))
    ∧ (∀ (env : SensorEnv) (fuel : Nat) (s : MLoopState),
      mloop env (env.clock 0) fuel (mloopInit env) = some s →
      s.first = none → moisture_reading_one env fuel = some 0)
    ∧ moistureScore 20000000 = 0
    ∧ moistureScore 80000000 = 100
    ∧ moistureScore 50000000 = 50
    ∧ (∀ P : ℚ, P ≤ 20000000 → moistureScore P = 0)
    ∧ (∀ P : ℚ, 80000000 ≤ P → moistureScore P = 100) := by
  refine ⟨?_, ?_, ?_, ?_, ?_, ?_, ?_⟩
  · intro env fuel s f l hm hf hl hf0 hl0
    simp only [moisture_reading_one, hm, hf, hl]
    rw [if_neg (not_or.mpr ⟨hf0, hl0⟩)]
  · intro env fuel s hm hf
    simp only [moisture_reading_one, hm, hf]
  · norm_num [moistureScore, round2, min_ns, max_ns, round_eq]
  · norm_num [moistureScore, round2, min_ns, max_ns, round_eq]
  · norm_num [moistureScore, round2, min_ns, max_ns, round_eq]
  · intro P h
    have h1 : min max_ns P ≤ min_ns := by
      simp only [min_ns, max_ns]
      exact le_trans (min_le_right _ _) h
    simp only [moistureScore]
    rw [max_eq_left h1]
    simp [round2]
  · intro P h
    have h1 : min max_ns P = max_ns := min_eq_left (by simpa [max_ns] using h)
    simp only [moistureScore]
    rw [h1, max_eq_right (by norm_num [min_ns, max_ns] : min_ns ≤ max_ns)]
    norm_num [round2, min_ns, max_ns, round_eq]

/-- Witness for C4 (amended): in `moistureGoodEnv` one transition is observed
with nonzero timestamps 10 ms and 60 ms, and the appended score is 50.00. -/
theorem moisture_scaling_amended_witness :
    moisture_reading_one moistureGoodEnv 3 = some 50 := by
  have h := moisture_scaling_amended.1 moistureGoodEnv 3
    ⟨2, 4, true, some 10000000, some 60000000, 1⟩ 10000000 60000000
    (by decide) rfl rfl (by decide) (by decide)
  rw [h]
  norm_num [moistureScore, round2, min_ns, max_ns, round_eq]

/-- Python's notion of whitespace for `str.split()` / `str.strip()`. -/
def pyIsSpace (c : Char) : Bool :=
  c = ' ' || c = '\t' || c = '\n' || c = '\r' || c = '\x0b' || c = '\x0c'

/-- Accumulator pass of Python `str.splitlines()`: line breaks are `\r\n`,
`\r` or `\n`, and a trailing break opens no further line. -/
def splitlinesAux : List Char → List Char → List (List Char)
  | [], acc => if acc.isEmpty then [] else [acc.reverse]
  | '\r' :: '\n' :: rest, acc => acc.reverse :: splitlinesAux rest []
  | '\r' :: rest, acc => acc.reverse :: splitlinesAux rest []
  | '\n' :: rest, acc => acc.reverse :: splitlinesAux rest []
  | c :: rest, acc => splitlinesAux rest (c :: acc)

def pySplitlines (s : String) : List String :=
  (splitlinesAux s.toList []).map String.mk

/-- Search pass of Python `str.partition(sep)`: the pieces before and after
the first occurrence of `sep`, or `none` when `sep` does not occur. -/
def partitionAux (sep : List Char) : List Char → List Char → Option (List Char × List Char)
  | [], _ => none
  | c :: rest, acc =>
    if sep.isPrefixOf (c :: rest) then
      some (acc.reverse, (c :: rest).drop sep.length)
    else partitionAux sep rest (c :: acc)

/-- Python `s.partition(sep)`, keeping only the head and tail pieces (the
source always discards the middle). Not found: `(s, "")`. -/
def pyPartition (sep s : String) : String × String :=
  match partitionAux sep.toList s.toList [] with
  | some (before, after) => (String.mk before, String.mk after)
  | none => (s, "")

/-- Accumulator pass of Python `str.split(sep)` for a one-character separator:
empty pieces are kept. -/
def splitChAux (sep : Char) : List Char → List Char → List (List Char)
  | [], acc => [acc.reverse]
  | c :: rest, acc =>
    if c = sep then acc.reverse :: splitChAux sep rest []
    else splitChAux sep rest (c :: acc)

def pySplitCh (sep : Char) (s : String) : List String :=
  (splitChAux sep s.toList []).map String.mk

/-- Accumulator pass of Python `str.split()` (no argument): split on
whitespace runs, producing no empty pieces. -/
def splitWsAux : List Char → List Char → List (List Char)
  | [], acc => if acc.isEmpty then [] else [acc.reverse]
  | c :: rest, acc =>
    if pyIsSpace c then
      if acc.isEmpty then splitWsAux rest []
      else acc.reverse :: splitWsAux rest []
    else splitWsAux rest (c :: acc)

def pySplitWs (s : String) : List String :=
  (splitWsAux s.toList []).map String.mk

/-- Python `str.strip()`. -/
def pyStrip (s : String) : String :=
  String.mk ((s.toList.dropWhile pyIsSpace).reverse.dropWhile pyIsSpace).reverse

/-- Python dict assignment `d[k] = v` on an insertion-ordered map: an existing
key keeps its position, a new key is appended. -/
def dictInsert (d : List (String × String)) (k v : String) : List (String × String) :=
  if d.any (fun p => p.1 == k) then
    d.map (fun p => if p.1 == k then (k, v) else p)
  else d ++ [(k, v)]

/-- `extract_args` of `extract_request`: split the string on `&`, skip empty
pieces, split each piece at its first `=`, and store into the arguments
dict. -/
def extract_args (kwargs : List (String × String)) (argsStr : String) :
    List (String × String) :=
  (pySplitCh '&' argsStr).foldl
    (fun kw arg =>
      if arg == "" then kw
      else
        let kv := pyPartition "=" arg
        dictInsert kw kv.1 kv.2)
    kwargs

/-- `extract_request(request)`: split the request at the first blank line into
header and body, take method/path/version from the first header line
(anything but exactly three tokens raises and yields `none`, as does an empty
request), cut the query string off the path at `?`, collect the remaining
header lines into the headers dict, and run `extract_args` over each body
line.  `none` models the `except:` branch returning four `None`s. -/
def extract_request (request : String) :
    Option (String × String × List (String × String) × List (String × String)) :=
  let hb := pyPartition "\r\n\r\n" request
  let body := hb.2
  match pySplitlines hb.1 with
  | [] => none
  | line0 :: rest =>
    match pySplitWs line0 with
    | [method, p, _] =>
      let pa := pyPartition "?" p
      -- `pa.2` (the request-line query string) is never fed to
      -- `extract_args`, mirroring the source: the helper is applied only to
      -- body lines, so query-string pairs are dropped.
      let headers := rest.foldl
        (fun hs line =>
          if line == "" then hs
          else
            let kv := pyPartition ":" line
            dictInsert hs kv.1 (pyStrip kv.2))
        []
      let kwargs :=
        if body == "" then [] else (pySplitlines body).foldl extract_args []
      some (pa.1, method, headers, kwargs)
    | _ => none

/-- Claim C3 evaluated on the code: the request `GET /moisture?x=1 HTTP/1.1`
with no body parses to path `/moisture` and method `GET`, but its arguments
map is empty — the query-string pair is dropped, although the unused
`extract_args` helper would have parsed it to `x = 1` had it been applied. -/
theorem extract_request_drops_query_args :
    extract_request "GET /moisture?x=1 HTTP/1.1\r\n\r\n"
      = some ("/moisture", "GET", [], [])
    ∧ extract_args [] "x=1" = [("x", "1")]
    ∧ ([] : List (String × String)) ≠ [("x", "1")] := by
  refine ⟨by decide, by decide, by decide⟩

/-- The three shapes an endpoint handler's non-`None` result can take. -/
inductive HandlerResult where
  | pair (code : Int) (text : String)
  | triple (code : Int) (text : String) (body : String)
  | bare (body : String)
deriving DecidableEq, Repr

/-- `http_version` of `webserver.py`. -/
def http_version : String := "HTTP/1.1"

/-- The body/status resolution of `handle_connection`, parameterized by the
filesystem-backed `path2html` (returning body and status for a path).  A
tuple result concatenates `str(code)` directly with the status text; a bare
string gets the fixed `"200 OK"`. -/
def resolve_response (p2h : String → String × String) (path : String) :
    Option HandlerResult → String × String
  | none => p2h path
  | some (HandlerResult.pair code text) =>
    ((p2h (if code = 200 then path else "/error.html")).1, toString code ++ text)
  | some (HandlerResult.triple code text body) => (body, toString code ++ text)
  | some (HandlerResult.bare body) => (body, "200 OK")

/-- The response string `f"{http_version} {rc}\r\n\r\n{html}"`. -/
def build_response (rc html : String) : String :=
  http_version ++ " " ++ rc ++ "\r\n\r\n" ++ html

/-- Claim C8: a tuple result's status fragment is the numeric code directly
concatenated with the status text (404/"Not found" gives the literal
`404Not found`), a bare-string result uses the fixed `200 OK`, and the full
response is `HTTP/1.1`, one space, the fragment, CRLF CRLF, then the body. -/
theorem response_framing :
    (∀ (p2h : String → String × String) (path text : String) (code : Int),
      (resolve_response p2h path (some (HandlerResult.pair code text))).2
        = toString code ++ text)
    ∧ (∀ (p2h : String → String × String) (path : String),
      (resolve_response p2h path (some (HandlerResult.pair 404 "Not found"))).2
        = "404Not found")
    ∧ (∀ (p2h : String → String × String) (path text body : String) (code : Int),
      resolve_response p2h path (some (HandlerResult.triple code text body))
        = (body, toString code ++ text))
    ∧ (∀ (p2h : String → String × String) (path text body : String),
      resolve_response p2h path (some (HandlerResult.triple 404 text body))
        = (body, "404" ++ text))
    ∧ (∀ (p2h : String → String × String) (path body : String),
      resolve_response p2h path (some (HandlerResult.bare body))
        = (body, "200 OK"))
    ∧ (∀ rc html : String,
      build_response rc html = "HTTP/1.1 " ++ rc ++ "\r\n\r\n" ++ html)
    ∧ build_response "200 OK" "BODY" = "HTTP/1.1 200 OK\r\n\r\nBODY" := by
  refine ⟨?_, ?_, ?_, ?_, ?_, ?_, by decide⟩
  · intro p2h path text code
    rfl
  · intro p2h path
    rfl
  · intro p2h path text body code
    rfl
  · intro p2h path text body
    rfl
  · intro p2h path body
    rfl
  · intro rc html
    simp [build_response, http_version, String.append_assoc]

/-- The Python exception classes that can escape a request's handling in this
system. -/
inductive PyExc where
  | indexError
  | valueError
  | typeError
  | keyError
  | hwError
deriving DecidableEq, Repr

/-- Numeric value of a list of decimal digits. -/
def digitsToNat (cs : List Char) : Nat :=
  cs.foldl (fun a c => a * 10 + (c.toNat - '0'.toNat)) 0

/-- Python's `float(s)` on the plain decimal forms (optional sign, digits,
optional fraction); `none` models the `ValueError` raise.  The exotic float
literals (exponents, `inf`, `nan`) play no role in this program's inputs. -/
def pyFloat (s : String) : Option ℚ :=
  let cs := (pyStrip s).toList
  let sr : ℚ × List Char :=
    match cs with
    | '-' :: rest => (-1, rest)
    | '+' :: rest => (1, rest)
    | _ => (1, cs)
  let intPart := sr.2.takeWhile Char.isDigit
  match sr.2.dropWhile Char.isDigit with
  | [] => if intPart.isEmpty then none else some (sr.1 * digitsToNat intPart)
  | '.' :: frac =>
    if frac.all Char.isDigit && !(intPart.isEmpty && frac.isEmpty) then
      some (sr.1 * ((digitsToNat intPart : ℚ)
        + (digitsToNat frac : ℚ) / (10 ^ frac.length : ℚ)))
    else none
  | _ => none

/-- `s[-1]`: the last character, raising `IndexError` (`none`) on an empty
string. -/
def pyLastChar (s : String) : Option Char :=
  s.toList.getLast?

/-- The domain of `label2pin`: any character other than `a`/`b`/`c` raises
`KeyError` at the pin lookup. -/
def char2label : Char → Option PumpLabel
  | 'a' => some PumpLabel.a
  | 'b' => some PumpLabel.b
  | 'c' => some PumpLabel.c
  | _ => none

/-- The `/water` endpoint handler: 404 if either input is absent, otherwise
key the pump off the last character of `pump` (lower-cased), parse `volume`
as a float, and dispense; a dispense fault re-raises to the caller. -/
def water (pins : Pins) (cm : ℚ) (fault : DFault) (pump volume : Option String) :
    Except PyExc (Option HandlerResult) :=
  match pump, volume with
  | none, _ => Except.ok (some (HandlerResult.pair 404 "Not found"))
  | _, none => Except.ok (some (HandlerResult.pair 404 "Not found"))
  | some ps, some vs =>
    match pyLastChar ps with
    | none => Except.error PyExc.indexError
    | some ch =>
      match pyFloat vs with
      | none => Except.error PyExc.valueError
      | some ml =>
        match char2label ch.toLower with
        | none => Except.error PyExc.keyError
        | some l =>
          match (dispense_water pins l ml cm fault).2.2 with
          | Except.ok _ => Except.ok none
          | Except.error _ => Except.error PyExc.hwError

/-- Python `str` of a list of ints, e.g. `str([0, 0, 0])`. -/
def pyReprIntList (xs : List Int) : String :=
  "[" ++ String.intercalate ", " (xs.map toString) ++ "]"

/-- The `/moisture` endpoint handler: the textual rendering of the shared
moisture-readings state. -/
def moisture (st : List Int) : Except PyExc (Option HandlerResult) :=
  Except.ok (some (HandlerResult.bare (pyReprIntList st)))

/-- `WebAPI.handle_api`: look up the endpoint for the path; on a method match
call the handler with the parsed arguments as keyword inputs (a key outside
the handler's parameters raises `TypeError`); no endpoint or a method
mismatch yields no response. -/
def handle_api (pins : Pins) (cm : ℚ) (fault : DFault) (st : List Int)
    (path method : String) (kwargs : List (String × String)) :
    Except PyExc (Option HandlerResult) :=
  if path == "/water" then
    if method == "POST" then
      if kwargs.all (fun p => p.1 == "pump" || p.1 == "volume") then
        water pins cm fault (List.lookup "pump" kwargs) (List.lookup "volume" kwargs)
      else Except.error PyExc.typeError
    else Except.ok none
  else if path == "/moisture" then
    if method == "GET" then
      if kwargs.isEmpty then moisture st else Except.error PyExc.typeError
    else Except.ok none
  else Except.ok none

/-- Observable socket events of one worker. -/
inductive WEvent where
  | sent (client : Nat) (response : String)
  | closed (client : Nat)
deriving DecidableEq, Repr

/-- `handle_connection`: read the request, parse it (an unparsable request is
closed with no response — `handle_api` sees path `None` and matches no
endpoint), dispatch to the API, resolve body and status, send, close.  An
exception escaping the API handler propagates out. -/
def handle_connection (p2h : String → String × String) (pins : Pins) (cm : ℚ)
    (fault : DFault) (st : List Int) (client : Nat) (request : String) :
    Except PyExc (List WEvent) :=
  match extract_request request with
  | none => Except.ok [WEvent.closed client]
  | some (path, method, _headers, kwargs) =>
    match handle_api pins cm fault st path method kwargs with
    | Except.error e => Except.error e
    | Except.ok response =>
      let hr := resolve_response p2h path response
      Except.ok [WEvent.sent client (build_response hr.2 hr.1),
                 WEvent.closed client]

/-- The `worker` loop over the clients it will dequeue, in order: handle each
connection inside `try: ... except IndexError:`, so an `IndexError` (from an
empty queue — or anything else) continues with the next client, while any
other exception escapes and terminates the worker.  The result is the events
emitted and the exception that killed the worker, if any (clients after it
are never served). -/
def worker_run (p2h : String → String × String) (pins : Pins) (cm : ℚ)
    (fault : DFault) (st : List Int) :
    List (Nat × String) → List WEvent × Option PyExc
  | [] => ([], none)
  | (c, r) :: rest =>
    match handle_connection p2h pins cm fault st c r with
    | Except.ok evs =>
      let result := worker_run p2h pins cm fault st rest
      (evs ++ result.1, result.2)
    | Except.error PyExc.indexError => worker_run p2h pins cm fault st rest
    | Except.error e => ([], some e)

/-- A POST /water request whose pump argument is present but empty. -/
def req_emptypump : String := "POST /water HTTP/1.1\r\n\r\npump=&volume=5"

/-- A POST /water request whose volume does not parse as a float. -/
def req_badvol : String := "POST /water HTTP/1.1\r\n\r\npump=a&volume=abc"

/-- A well-formed GET /moisture request. -/
def req_moisture : String := "GET /moisture HTTP/1.1\r\n\r\n"

/-- A concrete static file resolver and pin state for closed runs. -/
def p2h0 : String → String × String := fun _ => ("PAGE", "200 OK")

def pins0 : Pins := ⟨false, false, false⟩

/-- Claim C9: a POST /water whose `pump` argument is the empty string passes
the missing-input check, `pump[-1]` raises `IndexError`, the exception
escapes the handler into the worker's empty-queue `except IndexError` branch,
and the worker drops that connection (no response, no close) and continues
with the next client. -/
theorem water_empty_pump_contained :
    ∀ (p2h : String → String × String) (pins : Pins) (cm : ℚ) (fault : DFault)
      (st : List Int) (c : Nat) (rest : List (Nat × String)),
      extract_request req_emptypump
        = some ("/water", "POST", [], [("pump", ""), ("volume", "5")])
      ∧ water pins cm fault (some "") (some "5") = Except.error PyExc.indexError
      ∧ handle_connection p2h pins cm fault st c req_emptypump
          = Except.error PyExc.indexError
      ∧ worker_run p2h pins cm fault st ((c, req_emptypump) :: rest)
          = worker_run p2h pins cm fault st rest := by
  intro p2h pins cm fault st c rest
  exact ⟨by decide, rfl, rfl, rfl⟩

/-- Counterexample to claim C2 as stated: a /water request with an unparsable
volume raises `ValueError`, which the worker's `except IndexError` does not
catch — the worker task dies and the following queued client is never
served, although served fine on its own. -/
theorem worker_uncaught_exception_cx :
    worker_run p2h0 pins0 10 DFault.nofault [0, 0, 0]
        [(1, req_badvol), (2, req_moisture)]
      = ([], some PyExc.valueError)
    ∧ worker_run p2h0 pins0 10 DFault.nofault [0, 0, 0] [(2, req_moisture)]
      = ([WEvent.sent 2 "HTTP/1.1 200 OK\r\n\r\n[0, 0, 0]", WEvent.closed 2],
         none) :=
  ⟨rfl, rfl⟩

/-- Claim C2 (amended): a request whose handling raises `IndexError` is
contained — the worker continues with the remaining clients; a request whose
handling raises any other exception terminates that worker task, which then
serves none of the remaining clients. -/
theorem worker_fault_containment_amended :
    ∀ (p2h : String → String × String) (pins : Pins) (cm : ℚ) (fault : DFault)
      (st : List Int) (c : Nat) (r : String) (rest : List (Nat × String))
      (e : PyExc),
      handle_connection p2h pins cm fault st c r = Except.error e →
      worker_run p2h pins cm fault st ((c, r) :: rest)
        = if e = PyExc.indexError then worker_run p2h pins cm fault st rest
          else ([], some e) := by
  intro p2h pins cm fault st c r rest e h
  simp only [worker_run, h]
  cases e <;> simp

/-- Witness for C2 (amended): the concrete bad-volume request raises
`ValueError` and kills the worker. -/
theorem worker_fault_containment_amended_witness :
    worker_run p2h0 pins0 10 DFault.nofault [0, 0, 0] [(1, req_badvol)]
      = if PyExc.valueError = PyExc.indexError
        then worker_run p2h0 pins0 10 DFault.nofault [0, 0, 0] []
        else ([], some PyExc.valueError) :=
  worker_fault_containment_amended p2h0 pins0 10 DFault.nofault [0, 0, 0]
    1 req_badvol [] PyExc.valueError rfl

/-- The placeholder value of the shared `actual_moisture` state before the
watering loop's first sweep. -/
def actual_moisture : List Int := [0, 0, 0]

/-- Claim C10: before the first sweep, GET /moisture is answered with the
string rendering of the placeholder `[0, 0, 0]` and the implicit 200 OK. -/
theorem initial_moisture_response :
    ∀ (p2h : String → String × String) (pins : Pins) (cm : ℚ) (fault : DFault)
      (c : Nat),
      pyReprIntList actual_moisture = "[0, 0, 0]"
      ∧ handle_connection p2h pins cm fault actual_moisture c req_moisture
        = Except.ok [WEvent.sent c "HTTP/1.1 200 OK\r\n\r\n[0, 0, 0]",
                     WEvent.closed c] := by
  intro p2h pins cm fault c
  exact ⟨rfl, rfl⟩

end Plant
